import Mathlib

/-
A verification development for the glyph-atlas / text-mesh pipeline of
`bevy_rich_text3d` (`src/render.rs`). Machine numbers (`f32`) are embedded as
exact rationals; `FloatOrd` equality on `f32` (bit-for-bit) becomes exact
equality on `ℚ`. Rust collections (`HashMap`, `Assets`) are embedded as
association lists with first-match lookup and prepend-replace insertion, which
has the same lookup semantics. Code that lives in modules of the repository
that were not provided (`tess.rs`, `mesh_util.rs`, `layers.rs`, `line.rs`) is
modelled from the specification and marked as such in its doc comment; all
other definitions are direct translations of `src/render.rs`.
-/

namespace BevyRichText3d

set_option allowUnsafeReducibility true

/- The core arithmetic on `ℚ` is sealed for the elaborator; reopening it (for
this file only) lets `decide` and `rfl` evaluate the embedded pipeline on the
concrete inputs of the witnesses and counterexamples. Soundness is untouched:
proofs still pass through the kernel, which evaluates these operations
regardless. -/
attribute [local reducible] Rat.add Rat.sub Rat.mul Rat.div Rat.neg Rat.inv

/-- Planar vector of exact rationals modelling bevy's `Vec2` (a pair of `f32`).
Vertex positions are `Vec3` in the source with a trivially-handled `z`
component; the finalization closures of `render.rs` act on the planar part,
which is what is modelled. -/
structure Vec2 where
  x : ℚ
  y : ℚ
deriving DecidableEq

instance : Add Vec2 where
  add a b := ⟨a.x + b.x, a.y + b.y⟩

instance : Sub Vec2 where
  sub a b := ⟨a.x - b.x, a.y - b.y⟩

/-- Componentwise product, as glam's `Vec2 * Vec2` (used for `*anchor * dimension`). -/
instance : Mul Vec2 where
  mul a b := ⟨a.x * b.x, a.y * b.y⟩

/-- Scalar multiplication `v * s`. -/
def Vec2.scale (a : Vec2) (s : ℚ) : Vec2 := ⟨a.x * s, a.y * s⟩

/-- Scalar division `v / s`. -/
def Vec2.sdiv (a : Vec2) (s : ℚ) : Vec2 := ⟨a.x / s, a.y / s⟩

/-- RGBA color, modelling bevy's `Vec4` vertex color attribute. -/
structure Vec4 where
  x : ℚ
  y : ℚ
  z : ℚ
  w : ℚ
deriving DecidableEq

/-- Integer pair modelling bevy's `IVec2` (`atlas_dimension` bookkeeping). -/
structure IVec2 where
  x : ℤ
  y : ℤ
deriving DecidableEq

/-- Axis-aligned rectangle, modelling bevy's `Rect`. -/
structure Rect where
  min : Vec2
  max : Vec2
deriving DecidableEq

/-- `f32::MAX = (2 - 2⁻²³) · 2¹²⁷ = 2¹²⁸ - 2¹⁰⁴`, written out as its integer
value so that it evaluates by kernel bignum arithmetic; this is the sentinel
`min_x` starts from. -/
def f32Max : ℚ := 340282346638528859811704183484516925440

/-- `f32::MIN = -f32::MAX`, the sentinel `max_x` starts from. -/
def f32Min : ℚ := -f32Max

/-- `f32::min`, embedded on ℚ (agrees with `Min.min` on a linear order). -/
def qmin (a b : ℚ) : ℚ := if a < b then a else b

/-- `f32::max`, embedded on ℚ (agrees with `Max.max` on a linear order). -/
def qmax (a b : ℚ) : ℚ := if a < b then b else a

/-- `Assets<T>` storage: asset id to value, first-match lookup. -/
def AssetMap (α : Type) : Type := List (Nat × α)

instance {α : Type} [DecidableEq α] : DecidableEq (AssetMap α) :=
  inferInstanceAs (DecidableEq (List (Nat × α)))

/-- `Assets::get` / `Assets::get_mut` (resolution only; mutation is modelled by
re-insertion). -/
def findAsset {α : Type} : AssetMap α → Nat → Option α
  | [], _ => none
  | (k, v) :: rest, id => if k = id then some v else findAsset rest id

/-- `Assets::insert`: replaces any value stored under the same id. -/
def insertAsset {α : Type} (m : AssetMap α) (id : Nat) (v : α) : AssetMap α :=
  (id, v) :: m

/-- A fresh asset id, distinct from every id in the map and from the reserved
default id `0` (`AssetId::default()`). -/
def freshAssetId {α : Type} (m : AssetMap α) : Nat :=
  (m.map Prod.fst).foldl max 0 + 1

/-- `GlyphEntry` (`styling.rs`, reconstructed from its two construction sites in
`render.rs`): the cache key of the glyph atlas. `size` holds the
`FloatOrd(f32)` font size, compared bit-for-bit in the source and exactly
here; `weight` the numeric weight class; `join` the stroke join style;
`stroke` the optional nonzero stroke width. -/
structure GlyphEntry where
  font : Nat
  glyph_id : Nat
  size : ℚ
  weight : Nat
  join : Nat
  stroke : Option Nat
deriving DecidableEq

/-- Pixel data of the atlas image. Pixel contents are outside the modelled
fragment (no claim concerns them); width and height are what the pipeline
reads back. -/
structure Image where
  width : Nat
  height : Nat
deriving DecidableEq

/-- `TextAtlas::empty_image(w, h)`: a blank image of the given dimensions. -/
def empty_image (w h : Nat) : Image := ⟨w, h⟩

/-- `HashMap<GlyphEntry, (Rect, Vec2)>` lookup (`atlas.glyphs.get(..)`). -/
def lookupGlyph : List (GlyphEntry × Rect × Vec2) → GlyphEntry → Option (Rect × Vec2)
  | [], _ => none
  | (k, r, o) :: rest, e => if k = e then some (r, o) else lookupGlyph rest e

/-- `TextAtlas`: the glyph cache plus the handle of its atlas image. `cursor`
and `row_height` are the shelf-packer state (modelled from the spec, §4.2;
the packer itself lives in `tess.rs`, which is not among the provided
sources). -/
structure TextAtlas where
  glyphs : List (GlyphEntry × Rect × Vec2)
  image : Nat
  cursor : Vec2
  row_height : ℚ
deriving DecidableEq

/-- A parsed font face: `units_per_em` plus the glyph outlines (path command
point lists in font design units); a glyph id absent from `outlines` has no
outline (`Face::outline_glyph` returns `None`, e.g. whitespace). -/
structure FontFace where
  units_per_em : ℚ
  outlines : List (Nat × List Vec2)
deriving DecidableEq

/-- `Face::outline_glyph(GlyphId(gid), encoder)`: the accumulated outline
commands, or `none` when the glyph has no outline. -/
def FontFace.outline (face : FontFace) (gid : Nat) : Option (List Vec2) :=
  match face.outlines.find? (fun p => p.1 = gid) with
  | some p => some p.2
  | none => none

/-- The font database: font id to parse result. An id that is absent models
`with_face_data` finding no data; `some none` models `Face::parse` failing;
`some (some face)` a successfully parsed face. -/
structure FontDb where
  faces : List (Nat × Option FontFace)
deriving DecidableEq

/-- `with_face_data` followed by `Face::parse`, collapsed: `none` when either
the face data is missing or parsing fails. -/
def lookupFace : List (Nat × Option FontFace) → Nat → Option FontFace
  | [], _ => none
  | (k, f) :: rest, id => if k = id then f else lookupFace rest id

/-- `cosmic_text::LayoutGlyph`: one positioned glyph of a shaped layout run. -/
structure LayoutGlyph where
  x : ℚ
  y : ℚ
  w : ℚ
  font_size : ℚ
  font : Nat
  glyph_id : Nat
  metadata : Nat
deriving DecidableEq

def bboxMinX (l : List Vec2) : ℚ := l.foldl (fun a p => qmin a p.x) 0
def bboxMaxX (l : List Vec2) : ℚ := l.foldl (fun a p => qmax a p.x) 0
def bboxMinY (l : List Vec2) : ℚ := l.foldl (fun a p => qmin a p.y) 0
def bboxMaxY (l : List Vec2) : ℚ := l.foldl (fun a p => qmax a p.y) 0

/-- Modelled from the spec (§4.2): the shelf packer of `tess.rs` (not among the
provided sources). Patches are placed left to right along the current row;
the row wraps when the patch would overflow the image width; the image grows
when the row would overflow the image height. -/
def packRect (atlas : TextAtlas) (image : Image) (w h : ℚ) : Rect × TextAtlas × Image :=
  let cx : ℚ := if (image.width : ℚ) < atlas.cursor.x + w then 0 else atlas.cursor.x
  let cy : ℚ :=
    if (image.width : ℚ) < atlas.cursor.x + w then atlas.cursor.y + atlas.row_height
    else atlas.cursor.y
  let rh : ℚ :=
    if (image.width : ℚ) < atlas.cursor.x + w then h else qmax atlas.row_height h
  let img : Image :=
    if (image.height : ℚ) < cy + h then
      { image with height := max image.height (Int.toNat ⌈cy + h⌉) }
    else image
  (⟨⟨cx, cy⟩, ⟨cx + w, cy + h⟩⟩,
    { atlas with cursor := ⟨cx + w, cy⟩, row_height := rh }, img)

/-- Modelled from the spec (§4.1–§4.2): `CommandEncoder::tess_glyph` is defined
in `tess.rs`, which is not among the provided sources. Per the spec it scales
the accumulated outline commands by `scale`, optionally strokes them with the
given stroke width, rasterizes the result to a coverage patch, packs the patch
into a free rectangle of the atlas image (growing the image when needed),
stores `{entry ↦ placement}` in the cache, writes the pixels, and returns the
placement `(pixel rectangle, draw offset)` in scaled pixel units. -/
def tess_glyph (cmds : List Vec2) (stroke : Option ℚ) (scale : ℚ)
    (atlas : TextAtlas) (image : Image) (entry : GlyphEntry) :
    Option ((Rect × Vec2) × TextAtlas × Image) :=
  let pts := cmds.map fun p => p.scale scale
  let pad := (stroke.getD 0) * scale
  let w := bboxMaxX pts - bboxMinX pts + pad
  let h := bboxMaxY pts - bboxMinY pts + pad
  let packed := packRect atlas image w h
  let offset : Vec2 := ⟨bboxMinX pts, bboxMinY pts⟩
  some ((packed.1, offset),
    { packed.2.1 with glyphs := (entry, packed.1, offset) :: packed.2.1.glyphs },
    packed.2.2)

/-- The cache key built by `cache_glyph` (render.rs:420–427) for a given
effective weight, and by the lookup in `get_atlas_rect` (render.rs:375–382)
with `weight := styling.weight`. -/
def glyph_entry_of (glyph : LayoutGlyph) (weight : Nat) (join : Nat)
    (stroke : Option Nat) : GlyphEntry :=
  { font := glyph.font, glyph_id := glyph.glyph_id, size := glyph.font_size,
    weight := weight, join := join, stroke := stroke }

/-- `cache_glyph` (render.rs:408–433). The `CommandEncoder` argument of the
source is cleared and refilled from the face before use, so it is modelled by
the outline command list obtained from the face. Mutation of `atlas` and
`image` through `&mut` is modelled by returning their updated values. -/
def cache_glyph (scale_factor : ℚ) (atlas : TextAtlas) (image : Image)
    (glyph : LayoutGlyph) (stroke : Option Nat) (stroke_join : Nat)
    (weight : Nat) (face : FontFace) : Option ((Rect × Vec2) × TextAtlas × Image) :=
  let unit_per_em := face.units_per_em
  let entry := glyph_entry_of glyph weight stroke_join stroke
  match face.outline glyph.glyph_id with
  | none => none
  | some cmds =>
      let strokeQ := stroke.map fun x => (x : ℚ) * unit_per_em / 100
      let scale := glyph.font_size / unit_per_em * scale_factor
      tess_glyph cmds strokeQ scale atlas image entry

/-- The styling component `Text3dStyling`, restricted to the fields the
modelled fragment of `render.rs` reads: `size`, `weight`, `stroke_join`,
`align.as_fac()`, `anchor`, `world_scale`. -/
structure Text3dStyling where
  size : ℚ
  weight : Nat
  stroke_join : Nat
  align_fac : ℚ
  anchor : Vec2
  world_scale : Option ℚ
deriving DecidableEq

/-- `SegmentStyle`: per-segment style attributes read by the modelled fragment:
the optional weight override, fill color, optional stroke (width, color), the
draw offset and layer carried into draw requests, and the magic number. -/
structure SegmentStyle where
  weight : Option Nat
  fill_color : Vec4
  stroke : Option (Nat × Vec4)
  offset : Vec2
  layer : ℤ
  magic_number : Option ℚ
deriving DecidableEq

/-- `get_atlas_rect` (render.rs:362–406): pure cache lookup keyed on
`{font, glyph_id, FloatOrd(size), styling.weight, styling.stroke_join, stroke}`;
on a miss the face is fetched and parsed and `cache_glyph` renders and stores
the glyph, with effective weight `attrs.weight.unwrap_or(styling.weight)`. The
returned draw offset is divided by `scale_factor` on both paths. -/
def get_atlas_rect (db : FontDb) (scale_factor : ℚ) (styling : Text3dStyling)
    (atlas : TextAtlas) (image : Image) (glyph : LayoutGlyph)
    (attrs : SegmentStyle) (stroke : Option Nat) :
    Option ((Rect × Vec2) × TextAtlas × Image) :=
  let key := glyph_entry_of glyph styling.weight styling.stroke_join stroke
  let resolved : Option ((Rect × Vec2) × TextAtlas × Image) :=
    match lookupGlyph atlas.glyphs key with
    | some p => some (p, atlas, image)
    | none =>
        match lookupFace db.faces glyph.font with
        | none => none
        | some face =>
            cache_glyph scale_factor atlas image glyph stroke styling.stroke_join
              (attrs.weight.getD styling.weight) face
  resolved.map fun r => ((r.1.1, r.1.2.sdiv scale_factor), r.2.1, r.2.2)

/-- The mesh attribute buffers of `default_mesh` (render.rs:29–37): positions,
normals, UV0, UV1, colors (parallel, index-aligned) and the triangle index
buffer. -/
structure MeshData where
  positions : List Vec2
  normals : List Vec2
  uv0 : List Vec2
  uv1 : List Vec2
  colors : List Vec4
  indices : List Nat
deriving DecidableEq

/-- `default_mesh()` (render.rs:29–37): all attribute buffers empty. -/
def default_mesh : MeshData := ⟨[], [], [], [], [], []⟩

/-- One `DrawRequest` of kind `DrawType::Glyph` (`layers.rs`): the optional
stroke width, color, spatial offset and sort layer. The decoration kind
`DrawType::Line` and its run-merging machinery (`line.rs`) are outside the
modelled fragment — no claim concerns decorations. -/
structure DrawRequest where
  stroke : Option Nat
  color : Vec4
  offset : Vec2
  sort : ℤ
deriving DecidableEq

/-- Modelled from the spec (§4.4): `Text3dStyling::fill_draw_requests` lives in
`layers.rs`, which is not among the provided sources. It emits one glyph-fill
request with the segment's fill color, plus one glyph-stroke request with the
stroke's width and color when the segment style configures a stroke (the
stroke layered one step behind the fill); decoration-line requests are outside
the modelled fragment. -/
def fill_draw_requests (attrs : SegmentStyle) : List DrawRequest :=
  { stroke := none, color := attrs.fill_color, offset := attrs.offset,
    sort := attrs.layer } ::
    match attrs.stroke with
    | none => []
    | some s => [{ stroke := some s.1, color := s.2, offset := attrs.offset,
                   sort := attrs.layer - 1 }]

/-- Modelled from the spec (§4.5): `ExtractedMesh::cache_rectangle`
(`mesh_util.rs`, not among the provided sources). Appends one quad: four
vertices with positions spanning the glyph's screen rectangle (the atlas patch
size divided by the scale factor), UV0 the corners of the atlas pixel
rectangle — still in pixel space — a placeholder UV1 until the bounding-box
pass, the request color on each vertex, and two triangles. The `(layer,
insertion index)` sort key, the advance and the magic number feed the post-loop
stable sort, which is outside the modelled fragment — no claim concerns quad
ordering. -/
def cache_rectangle (m : MeshData) (base : Vec2) (pixel_rect : Rect)
    (color : Vec4) (scale_factor : ℚ) : MeshData :=
  let n := m.positions.length
  let size := (pixel_rect.max - pixel_rect.min).sdiv scale_factor
  { positions := m.positions ++
      [base, base + ⟨size.x, 0⟩, base + ⟨0, size.y⟩, base + size],
    normals := m.normals ++ [⟨0, 0⟩, ⟨0, 0⟩, ⟨0, 0⟩, ⟨0, 0⟩],
    uv0 := m.uv0 ++
      [pixel_rect.min, ⟨pixel_rect.max.x, pixel_rect.min.y⟩,
        ⟨pixel_rect.min.x, pixel_rect.max.y⟩, pixel_rect.max],
    uv1 := m.uv1 ++ [⟨0, 0⟩, ⟨0, 0⟩, ⟨0, 0⟩, ⟨0, 0⟩],
    colors := m.colors ++ [color, color, color, color],
    indices := m.indices ++ [n, n + 1, n + 2, n + 1, n + 3, n + 2] }

/-- Modelled from the spec (§4.5 pass 1): `ExtractedMesh::post_process_uv1`
overwrites UV1 of every vertex with its position normalized against the text
block's bounding box min corner and dimension. -/
def post_process_uv1 (m : MeshData) (bb_min : Vec2) (dimension : Vec2) : MeshData :=
  { m with uv1 := m.positions.map fun v =>
      ⟨(v.x - bb_min.x) / dimension.x, (v.y - bb_min.y) / dimension.y⟩ }

/-- Modelled from the spec (§4.5 pass 2): `ExtractedMesh::translate` applies
the given map to every vertex position; the map itself is the closure written
at render.rs:349–353. -/
def MeshData.translate (m : MeshData) (f : Vec2 → Vec2) : MeshData :=
  { m with positions := m.positions.map f }

/-- Modelled from the spec (§4.5 pass 3): `ExtractedMesh::pixel_to_uv` divides
every UV0 coordinate by the atlas image's current pixel dimensions. -/
def pixel_to_uv (m : MeshData) (image : Image) : MeshData :=
  { m with uv0 := m.uv0.map fun v =>
      ⟨v.x / (image.width : ℚ), v.y / (image.height : ℚ)⟩ }

/-- The running state of the per-entity glyph loop (render.rs:190–335): the
mesh being built, the shared atlas and image threaded through cache misses,
and the scalar accumulators `width`, `advance`, `height`, `min_x`, `max_x`.
The `real_index` counter only feeds the sort key and is outside the modelled
fragment. -/
structure LoopState where
  mesh : MeshData
  atlas : TextAtlas
  image : Image
  width : ℚ
  advance : ℚ
  height : ℚ
  min_x : ℚ
  max_x : ℚ
deriving DecidableEq

/-- The `DrawType::Glyph` arm of the request loop (render.rs:226–262): resolve
the atlas placement; on `None` skip the request (`continue`); otherwise update
the horizontal bounds and append the quad. -/
def drawGlyph (db : FontDb) (scale_factor : ℚ) (styling : Text3dStyling)
    (dx line_y : ℚ) (glyph : LayoutGlyph) (attrs : SegmentStyle)
    (st : LoopState) (req : DrawRequest) : LoopState :=
  match get_atlas_rect db scale_factor styling st.atlas st.image glyph attrs
      req.stroke with
  | none => st
  | some ((pixel_rect, base0), atlas', image') =>
      let dw := glyph.x + base0.x
      let base : Vec2 := ⟨glyph.x, glyph.y⟩ + base0 + req.offset + ⟨dx, -line_y⟩
      { st with
        atlas := atlas', image := image',
        min_x := qmin st.min_x (dw + dx),
        max_x := qmax st.max_x (dw + dx + glyph.w),
        mesh := cache_rectangle st.mesh base pixel_rect req.color scale_factor }

/-- One glyph of a run (render.rs:207–233): look up the segment's style by the
glyph's metadata index (skipping the glyph if absent), expand it into draw
requests and process each. -/
def processGlyph (db : FontDb) (scale_factor : ℚ) (styling : Text3dStyling)
    (segments : List (Option Nat × SegmentStyle)) (dx line_y : ℚ)
    (st : LoopState) (glyph : LayoutGlyph) : LoopState :=
  match segments.get? glyph.metadata with
  | none => st
  | some (_, attrs) =>
      (fill_draw_requests attrs).foldl
        (drawGlyph db scale_factor styling dx line_y glyph attrs) st

/-- `cosmic_text` layout run: one visual line of positioned glyphs, produced by
the external shaping engine (spec §6). -/
structure LayoutRun where
  line_w : ℚ
  line_y : ℚ
  line_top : ℚ
  line_height : ℚ
  glyphs : List LayoutGlyph
deriving DecidableEq

/-- One layout run of the glyph loop (render.rs:202–335): fold the line width
and height into the accumulators, process every glyph with the per-run
alignment shift `dx = -line_w * align_fac`, then advance by the line width. -/
def processRun (db : FontDb) (scale_factor : ℚ) (styling : Text3dStyling)
    (segments : List (Option Nat × SegmentStyle)) (st : LoopState)
    (run : LayoutRun) : LoopState :=
  let st1 := { st with
    width := qmax st.width run.line_w,
    height := qmax st.height (run.line_top + run.line_height) }
  let dx := -run.line_w * styling.align_fac
  let st2 := run.glyphs.foldl
    (processGlyph db scale_factor styling segments dx run.line_y) st1
  { st2 with advance := st2.advance + run.line_w }

/-- The whole glyph loop (render.rs:190–335), starting from an empty mesh (the
mesh is entirely rebuilt, spec §3) and the `f32::MAX` / `f32::MIN` bound
sentinels. -/
def glyphLoop (db : FontDb) (scale_factor : ℚ) (styling : Text3dStyling)
    (segments : List (Option Nat × SegmentStyle)) (runs : List LayoutRun)
    (atlas : TextAtlas) (image : Image) : LoopState :=
  runs.foldl (processRun db scale_factor styling segments)
    { mesh := default_mesh, atlas := atlas, image := image,
      width := 0, advance := 0, height := 0, min_x := f32Max, max_x := f32Min }

/-- `Text3dDimensionOut`: the per-entity output component holding the text
block dimension and the recorded atlas dimensions. -/
structure Text3dDimensionOut where
  dimension : Vec2
  atlas_dimension : IVec2
deriving DecidableEq

/-- The result of a full per-entity rebuild. -/
structure RebuildResult where
  mesh : MeshData
  atlas : TextAtlas
  image : Image
  out : Text3dDimensionOut
deriving DecidableEq

/-- The rebuild tail of `text_render` (render.rs:337–358): force the bounds
when no quad contributed (`max_x < min_x`), compute dimension, center, anchor
offset and bounding-box min, then run the UV1 bounding-box pass, the
anchor/translate pass (with the optional `world_scale / size` scaling), write
the dimension output, and last divide UV0 by the final image dimensions. -/
def rebuild (db : FontDb) (scale_factor : ℚ) (styling : Text3dStyling)
    (segments : List (Option Nat × SegmentStyle)) (runs : List LayoutRun)
    (atlas : TextAtlas) (image : Image) : RebuildResult :=
  let st := glyphLoop db scale_factor styling segments runs atlas image
  let mm : ℚ × ℚ :=
    if st.max_x < st.min_x then (0, 1 / 1000) else (st.min_x, st.max_x)
  let min_x := mm.1
  let max_x := mm.2
  let dimension : Vec2 := ⟨max_x - min_x, st.height⟩
  let center : Vec2 := ⟨(max_x + min_x) / 2, -st.height / 2⟩
  let offset := styling.anchor * dimension - center
  let bb_min : Vec2 := ⟨min_x, -st.height⟩
  let m1 := post_process_uv1 st.mesh bb_min dimension
  let m2 :=
    match styling.world_scale with
    | some ws => m1.translate fun v => ((v + offset).scale ws).sdiv styling.size
    | none => m1.translate fun v => v + offset
  let out : Text3dDimensionOut :=
    { dimension := dimension,
      atlas_dimension := ⟨(st.image.width : ℤ), (st.image.height : ℤ)⟩ }
  { mesh := pixel_to_uv m2 st.image, atlas := st.atlas, image := st.image,
    out := out }

/-- The plugin settings read by the pass (`Text3dPlugin`): the display scale
factor and the default atlas image dimensions used for lazy creation. -/
structure Settings where
  scale_factor : ℚ
  default_w : Nat
  default_h : Nat
deriving DecidableEq

/-- `get_mesh` (render.rs:39–59): resolve the entity's `Mesh2d`/`Mesh3d`
handle, creating and binding a default mesh when the handle is the default
asset id (`0` in the model). Returns the resolved id together with the
(possibly extended) mesh store, or `none` when the entity has neither handle
or resolution fails. -/
def get_mesh (meshes : AssetMap MeshData) (h : Option Nat) :
    Option (Nat × AssetMap MeshData) :=
  match h with
  | none => none
  | some id =>
      let idm : Nat × AssetMap MeshData :=
        if id = 0 then
          let nid := freshAssetId meshes
          (nid, insertAsset meshes nid default_mesh)
        else (id, meshes)
      match findAsset idm.2 idm.1 with
      | none => none
      | some _ => some idm

/-- One text entity of the query (render.rs:67–75): component handles, change
flags, the segment table, styling, the externally shaped layout runs (spec §6)
and the dimension output component. -/
structure Entity where
  atlasHandle : Nat
  meshHandle : Option Nat
  textChanged : Bool
  boundsChanged : Bool
  stylingChanged : Bool
  segments : List (Option Nat × SegmentStyle)
  styling : Text3dStyling
  runs : List LayoutRun
  output : Text3dDimensionOut
deriving DecidableEq

/-- `segments.get(*entity).is_ok_and(|x| x.is_changed())` (render.rs:118): a
missing extracted-segment entity counts as unchanged. -/
def segChangedAt (segq : AssetMap Bool) (id : Nat) : Bool :=
  match findAsset segq id with
  | some b => b
  | none => false

/-- The mutable asset stores threaded through the pass. -/
structure PassState where
  images : AssetMap Image
  atlases : AssetMap TextAtlas
  meshes : AssetMap MeshData
deriving DecidableEq

/-- Outcome of processing one entity: `ret` models the source executing
`return` (ending the whole pass), `next` models `continue` or normal fall
through to the next entity. -/
inductive EntityResult where
  | ret (st : PassState) (e : Entity)
  | next (st : PassState) (e : Entity)
deriving DecidableEq

/-- The per-entity body after atlas resolution and lazy image creation
(render.rs:109–358): resolve the atlas image (`return` on failure), run
change detection with the early-out continue / UV0-rescale paths, otherwise
rebuild the mesh from the shaped runs and write back mesh, atlas, image and
dimension output. -/
def processEntityInner (cfg : Settings) (db : FontDb) (redraw : Bool)
    (segq : AssetMap Bool) (st : PassState) (atlas : TextAtlas)
    (e : Entity) : EntityResult :=
  match findAsset st.images atlas.image with
  | none => .ret st e
  | some image =>
      if redraw = false ∧ e.textChanged = false ∧ e.boundsChanged = false ∧
          e.stylingChanged = false ∧
          (e.segments.all fun s =>
            match s.1 with
            | none => true
            | some ent => !segChangedAt segq ent) = true then
        let new_dimension : IVec2 := ⟨(image.width : ℤ), (image.height : ℤ)⟩
        if e.output.atlas_dimension = new_dimension then .next st e
        else
          match get_mesh st.meshes e.meshHandle with
          | none => .next st e
          | some (mid, meshes1) =>
              match findAsset meshes1 mid with
              | none =>
                  .next { st with meshes := meshes1 }
                    { e with meshHandle := some mid }
              | some m =>
                  let m1 := { m with uv0 := m.uv0.map fun v =>
                    ⟨v.x * ((e.output.atlas_dimension.x : ℚ) / (new_dimension.x : ℚ)),
                      v.y * ((e.output.atlas_dimension.y : ℚ) / (new_dimension.y : ℚ))⟩ }
                  .next { st with meshes := insertAsset meshes1 mid m1 }
                    { e with meshHandle := some mid,
                             output := { e.output with
                               atlas_dimension := new_dimension } }
      else
        match get_mesh st.meshes e.meshHandle with
        | none => .next st e
        | some (mid, meshes1) =>
            let r := rebuild db cfg.scale_factor e.styling e.segments e.runs
              atlas image
            .next { st with
                meshes := insertAsset meshes1 mid r.mesh,
                images := insertAsset st.images atlas.image r.image,
                atlases := insertAsset st.atlases e.atlasHandle r.atlas }
              { e with meshHandle := some mid, output := r.out }

/-- The body of the per-entity loop of `text_render` (render.rs:96–359):
resolve the atlas (`return` on failure), lazily create and bind the atlas
image when its handle is the default id or unresolved, then hand over to
`processEntityInner`. -/
def processEntity (cfg : Settings) (db : FontDb) (redraw : Bool)
    (segq : AssetMap Bool) (st : PassState) (e : Entity) : EntityResult :=
  match findAsset st.atlases e.atlasHandle with
  | none => .ret st e
  | some atlas0 =>
      if atlas0.image = 0 ∨ findAsset st.images atlas0.image = none then
        let nid := freshAssetId st.images
        processEntityInner cfg db redraw segq
          { st with
            images := insertAsset st.images nid
              (empty_image cfg.default_w cfg.default_h),
            atlases := insertAsset st.atlases e.atlasHandle
              { atlas0 with image := nid } }
          { atlas0 with image := nid } e
      else processEntityInner cfg db redraw segq st atlas0 e

/-- The entity loop (render.rs:96): processes entities in order; an
`EntityResult.ret` ends the loop, leaving the current and all remaining
entities unprocessed, exactly as the source's `return` does. -/
def runEntities (cfg : Settings) (db : FontDb) (redraw : Bool)
    (segq : AssetMap Bool) : PassState → List Entity → PassState × List Entity
  | st, [] => (st, [])
  | st, e :: rest =>
      match processEntity cfg db redraw segq st e with
      | .ret st1 e1 => (st1, e1 :: rest)
      | .next st1 e1 =>
          let r := runEntities cfg db redraw segq st1 rest
          (r.1, e1 :: r.2)

/-- The queue drain (render.rs:87–93): each asynchronously produced
`(id, atlas, image)` replaces the stored image under the atlas's image id and
the stored atlas under its id, and forces `redraw`. -/
def drainQueue : List (Nat × TextAtlas × Image) → AssetMap Image →
    AssetMap TextAtlas → Bool → AssetMap Image × AssetMap TextAtlas × Bool
  | [], images, atlases, redraw => (images, atlases, redraw)
  | (id, atlas, img) :: rest, images, atlases, _ =>
      drainQueue rest (insertAsset images atlas.image img)
        (insertAsset atlases id atlas) true

/-- The world visible to the `text_render` system: the shared font-rendering
context (its change flag, async queue and font database), the asset stores,
the extracted-segment change flags, and the queried text entities. -/
structure World where
  fontChanged : Bool
  queue : List (Nat × TextAtlas × Image)
  images : AssetMap Image
  atlases : AssetMap TextAtlas
  meshes : AssetMap MeshData
  segChanged : AssetMap Bool
  entities : List Entity
  db : FontDb
deriving DecidableEq

/-- `text_render` (render.rs:61–360). `lockAcquired` is the outcome of
`font_system.0.try_lock()`: on failure the system returns at once; otherwise
`redraw` is seeded from the font-system change flag, the async queue is
drained, and the entities are processed. -/
def text_render (cfg : Settings) (lockAcquired : Bool) (w : World) : World :=
  match lockAcquired with
  | false => w
  | true =>
      let redraw0 := w.fontChanged
      let d := drainQueue w.queue w.images w.atlases redraw0
      let r := runEntities cfg w.db d.2.2 w.segChanged ⟨d.1, d.2.1, w.meshes⟩
        w.entities
      { w with queue := [], images := r.1.images, atlases := r.1.atlases,
               meshes := r.1.meshes, entities := r.2 }

/-! Concrete fixtures used by witnesses and counterexamples. -/

/-- Outline of glyph 33 of the test face, in font design units. -/
def outlineA : List Vec2 := [⟨0, 0⟩, ⟨500, 700⟩]

/-- A test face: 1000 units per em, glyphs 33 and 34 have outlines, any other
glyph id (e.g. 99, a whitespace glyph) has none. -/
def faceA : FontFace := ⟨1000, [(33, outlineA), (34, [⟨0, 0⟩, ⟨400, 600⟩])]⟩

/-- A test font database: font 7 parses to `faceA`; any other id is missing. -/
def dbA : FontDb := ⟨[(7, some faceA)]⟩

/-- A test styling: size 20, weight 400, join 0, left alignment, zero anchor,
no world-scale override. -/
def stylingA : Text3dStyling := ⟨20, 400, 0, 0, ⟨0, 0⟩, none⟩

/-- A plain segment style: no weight override, no stroke. -/
def attrsPlain : SegmentStyle := ⟨none, ⟨1, 1, 1, 1⟩, none, ⟨0, 0⟩, 0, none⟩

/-- A segment style overriding the weight to 700 (bold). -/
def attrsBold : SegmentStyle := ⟨some 700, ⟨1, 1, 1, 1⟩, none, ⟨0, 0⟩, 0, none⟩

/-- An empty atlas whose image handle is asset 1. -/
def atlasA : TextAtlas := ⟨[], 1, ⟨0, 0⟩, 0⟩

/-- A 256×256 atlas image. -/
def imageA : Image := ⟨256, 256⟩

/-- A positioned glyph: glyph 33 of font 7 at the origin, advance 10,
font size 20, segment 0. -/
def glyphA : LayoutGlyph := ⟨0, 0, 10, 20, 7, 33, 0⟩

/-- A whitespace-like glyph: glyph id 99 of font 7 has no outline. -/
def glyphSpace : LayoutGlyph := ⟨0, 0, 5, 20, 7, 99, 0⟩

/-- Default settings: scale factor 1, default atlas 256×256. -/
def cfgA : Settings := ⟨1, 256, 256⟩

/-- A loop state before any draw request: empty mesh, empty atlas, sentinels. -/
def loopStA : LoopState :=
  ⟨default_mesh, atlasA, imageA, 0, 0, 0, f32Max, f32Min⟩

/-- A fill draw request with white color and no offset. -/
def reqA : DrawRequest := ⟨none, ⟨1, 1, 1, 1⟩, ⟨0, 0⟩, 0⟩

/-- First resolution of `glyphA` with the bold segment override against an
empty cache: a miss, so the glyph is tessellated and stored. -/
def c1_first : Option ((Rect × Vec2) × TextAtlas × Image) :=
  get_atlas_rect dbA 1 stylingA atlasA imageA glyphA attrsBold none

/-- Second, identical resolution against the cache produced by the first. -/
def c1_second : Option ((Rect × Vec2) × TextAtlas × Image) :=
  c1_first.bind fun r => get_atlas_rect dbA 1 stylingA r.2.1 r.2.2 glyphA attrsBold none

/-- A one-quad mesh left over from a previous pass. -/
def meshC2 : MeshData :=
  ⟨[⟨1, 1⟩], [⟨0, 0⟩], [⟨2, 2⟩], [⟨0, 0⟩], [⟨1, 1, 1, 1⟩], []⟩

/-- An empty atlas whose image handle is asset 3. -/
def atlasC2 : TextAtlas := ⟨[], 3, ⟨0, 0⟩, 0⟩

/-- An entity with nothing changed, whose recorded atlas dimensions (4×4)
differ from the current image dimensions (2×2). -/
def entC2 : Entity :=
  { atlasHandle := 2, meshHandle := some 1, textChanged := false,
    boundsChanged := false, stylingChanged := false, segments := [],
    styling := stylingA, runs := [], output := ⟨⟨5, 5⟩, ⟨4, 4⟩⟩ }

/-- A world around `entC2` in which the font-system resource reports changed,
forcing a pass-global redraw. -/
def worldC2 : World :=
  { fontChanged := true, queue := [], images := [(3, ⟨2, 2⟩)],
    atlases := [(2, atlasC2)], meshes := [(1, meshC2)], segChanged := [],
    entities := [entC2], db := dbA }

/-- The pass state of the resize fixtures. -/
def stC3 : PassState := ⟨[(3, ⟨2, 2⟩)], [(2, atlasC2)], [(1, meshC2)]⟩

/-- `entC2` with its atlas-dimension record agreeing with the image (2×2). -/
def entC3 : Entity := { entC2 with output := ⟨⟨5, 5⟩, ⟨2, 2⟩⟩ }

/-- An entity identical to `entC2` except that its atlas handle (9) is absent
from the atlas store. -/
def entC4bad : Entity := { entC2 with atlasHandle := 9 }

/-- A world whose first entity has an unresolvable atlas and whose second
entity would be updated if processed. -/
def worldC4 : World :=
  { fontChanged := false, queue := [], images := [(3, ⟨2, 2⟩)],
    atlases := [(2, atlasC2)], meshes := [(1, meshC2)], segChanged := [],
    entities := [entC4bad, entC2], db := dbA }

/-- `worldC4` without the failing entity. -/
def worldC4' : World := { worldC4 with entities := [entC2] }

/-- A zero-advance glyph (e.g. a combining mark): it has an outline (glyph 33)
but `w = 0`, positioned at x = 5. -/
def glyphZ : LayoutGlyph := ⟨5, 0, 0, 20, 7, 33, 0⟩

/-- A one-glyph layout run around `glyphZ`. -/
def runZ : LayoutRun := ⟨0, 0, 0, 30, [glyphZ]⟩

/-- A one-segment table for the zero-advance fixture. -/
def segsZ : List (Option Nat × SegmentStyle) := [(none, attrsPlain)]

/-- Two asynchronously produced atlases with distinct ids and image ids. -/
def queueW : List (Nat × TextAtlas × Image) :=
  [(5, ⟨[], 10, ⟨0, 0⟩, 0⟩, ⟨64, 64⟩), (6, ⟨[], 11, ⟨0, 0⟩, 0⟩, ⟨32, 32⟩)]

/-- A world with a pending async queue and no entities. -/
def worldW : World := ⟨false, queueW, [], [], [], [], [], dbA⟩

/-! Association-list and drain lemmas. -/

theorem findAsset_insert_self {α : Type} (m : AssetMap α) (id : Nat) (v : α) :
    findAsset (insertAsset m id v) id = some v := by
  simp [insertAsset, findAsset]

theorem findAsset_insert_ne {α : Type} (m : AssetMap α) (id id' : Nat) (v : α)
    (h : id' ≠ id) : findAsset (insertAsset m id v) id' = findAsset m id' := by
  simp [insertAsset, findAsset, Ne.symm h]

theorem drainQueue_redraw (q : List (Nat × TextAtlas × Image))
    (images : AssetMap Image) (atlases : AssetMap TextAtlas) (r : Bool) :
    (drainQueue q images atlases r).2.2 = (r || !q.isEmpty) := by
  induction q generalizing images atlases r with
  | nil => simp [drainQueue]
  | cons e rest ih =>
      obtain ⟨id, atlas, img⟩ := e
      simp [drainQueue, ih]

theorem drainQueue_atlases_stable (q : List (Nat × TextAtlas × Image))
    (images : AssetMap Image) (atlases : AssetMap TextAtlas) (r : Bool)
    (id : Nat) (h : ∀ e ∈ q, e.1 ≠ id) :
    findAsset (drainQueue q images atlases r).2.1 id = findAsset atlases id := by
  induction q generalizing images atlases r with
  | nil => rfl
  | cons hd rest ih =>
      obtain ⟨eid, atlas, img⟩ := hd
      have h1 : eid ≠ id := h _ (List.mem_cons_self _ _)
      rw [drainQueue, ih _ _ _ fun e he => h e (List.mem_cons_of_mem _ he)]
      exact findAsset_insert_ne _ _ _ _ h1.symm

theorem drainQueue_images_stable (q : List (Nat × TextAtlas × Image))
    (images : AssetMap Image) (atlases : AssetMap TextAtlas) (r : Bool)
    (iid : Nat) (h : ∀ e ∈ q, e.2.1.image ≠ iid) :
    findAsset (drainQueue q images atlases r).1 iid = findAsset images iid := by
  induction q generalizing images atlases r with
  | nil => rfl
  | cons hd rest ih =>
      obtain ⟨eid, atlas, img⟩ := hd
      have h1 : atlas.image ≠ iid := h _ (List.mem_cons_self _ _)
      rw [drainQueue, ih _ _ _ fun e he => h e (List.mem_cons_of_mem _ he)]
      exact findAsset_insert_ne _ _ _ _ h1.symm

theorem drainQueue_mem (q : List (Nat × TextAtlas × Image))
    (images : AssetMap Image) (atlases : AssetMap TextAtlas) (r : Bool)
    (hA : (q.map fun e => e.1).Nodup)
    (hI : (q.map fun e => e.2.1.image).Nodup) :
    ∀ e ∈ q,
      findAsset (drainQueue q images atlases r).2.1 e.1 = some e.2.1 ∧
      findAsset (drainQueue q images atlases r).1 e.2.1.image = some e.2.2 := by
  induction q generalizing images atlases r with
  | nil => intro e he; simp at he
  | cons hd rest ih =>
      intro e he
      simp only [List.map_cons, List.nodup_cons] at hA hI
      obtain ⟨hA1, hA2⟩ := hA
      obtain ⟨hI1, hI2⟩ := hI
      rcases List.mem_cons.mp he with rfl | hmem
      · obtain ⟨eid, atlas, img⟩ := e
        constructor
        · rw [drainQueue, drainQueue_atlases_stable _ _ _ _ _
            fun e' he' heq => hA1 (List.mem_map.mpr ⟨e', he', heq⟩)]
          exact findAsset_insert_self _ _ _
        · rw [drainQueue, drainQueue_images_stable _ _ _ _ _
            fun e' he' heq => hI1 (List.mem_map.mpr ⟨e', he', heq⟩)]
          exact findAsset_insert_self _ _ _
      · obtain ⟨eid, atlas, img⟩ := hd
        rw [drainQueue]
        exact ih _ _ _ hA2 hI2 e hmem

/-! The claims. -/

/-- Claim C5: if the try-lock on the shared font-rendering context fails, the
whole pass is skipped without blocking: `text_render` returns before draining
the async queue or processing any entity, and no mesh, image, atlas or output
state is modified. -/
theorem lock_contention_skips_pass (cfg : Settings) (w : World) :
    text_render cfg false w = w := rfl

/-- Claim C7: on a cache miss, `cache_glyph` invokes the tessellator — which
applies the given scale to the outline coordinates before rasterization —
with scale `glyph.font_size / units_per_em * scale_factor`, where
`units_per_em` is read from the parsed face and `scale_factor` is the
configured display scale factor (the stroke width is converted to font units
as `stroke * units_per_em / 100`). -/
theorem cache_glyph_scale_formula (scale_factor : ℚ) (atlas : TextAtlas)
    (image : Image) (glyph : LayoutGlyph) (stroke : Option Nat)
    (stroke_join weight : Nat) (face : FontFace) (cmds : List Vec2)
    (h : face.outline glyph.glyph_id = some cmds) :
    cache_glyph scale_factor atlas image glyph stroke stroke_join weight face =
      tess_glyph cmds (stroke.map fun x => (x : ℚ) * face.units_per_em / 100)
        (glyph.font_size / face.units_per_em * scale_factor) atlas image
        (glyph_entry_of glyph weight stroke_join stroke) := by
  unfold cache_glyph
  rw [h]

/-- Witness for C7 at a concrete face and glyph. -/
theorem cache_glyph_scale_formula_witness :
    faceA.outline glyphA.glyph_id = some outlineA ∧
    cache_glyph 2 atlasA imageA glyphA none 0 500 faceA =
      tess_glyph outlineA
        ((none : Option Nat).map fun x => (x : ℚ) * faceA.units_per_em / 100)
        (glyphA.font_size / faceA.units_per_em * 2) atlasA imageA
        (glyph_entry_of glyphA 500 0 none) :=
  ⟨by decide,
    cache_glyph_scale_formula 2 atlasA imageA glyphA none 0 500 faceA outlineA
      (by decide)⟩

/-- Claim C9: with the lock acquired, the async queue is drained completely
before any per-entity work begins — the state handed to the entity loop is
the drained one and the post-pass queue is empty; each drained
`(id, atlas, image)` entry replaces the entire stored image under the atlas's
image id and the stored atlas under its id (stated for queues without
duplicated ids); and a non-empty queue forces `redraw` for every entity of
the pass. -/
theorem async_queue_drained_before_entities (cfg : Settings) (w : World)
    (hA : (w.queue.map fun e => e.1).Nodup)
    (hI : (w.queue.map fun e => e.2.1.image).Nodup) :
    (text_render cfg true w).queue = [] ∧
    (drainQueue w.queue w.images w.atlases w.fontChanged).2.2
      = (w.fontChanged || !w.queue.isEmpty) ∧
    (∀ e ∈ w.queue,
      findAsset (drainQueue w.queue w.images w.atlases w.fontChanged).2.1 e.1
        = some e.2.1 ∧
      findAsset (drainQueue w.queue w.images w.atlases w.fontChanged).1
        e.2.1.image = some e.2.2) ∧
    text_render cfg true w =
      (let d := drainQueue w.queue w.images w.atlases w.fontChanged
       let r := runEntities cfg w.db d.2.2 w.segChanged ⟨d.1, d.2.1, w.meshes⟩
         w.entities
       { w with queue := [], images := r.1.images, atlases := r.1.atlases,
                meshes := r.1.meshes, entities := r.2 }) :=
  ⟨rfl, drainQueue_redraw _ _ _ _, drainQueue_mem _ _ _ _ hA hI, rfl⟩

/-- Witness for C9 on a concrete two-entry queue. -/
theorem async_queue_drained_before_entities_witness :
    ((worldW.queue.map fun e => e.1).Nodup ∧
      (worldW.queue.map fun e => e.2.1.image).Nodup) ∧
    ((text_render cfgA true worldW).queue = [] ∧
      (drainQueue worldW.queue worldW.images worldW.atlases
        worldW.fontChanged).2.2 = (worldW.fontChanged || !worldW.queue.isEmpty) ∧
      (∀ e ∈ worldW.queue,
        findAsset (drainQueue worldW.queue worldW.images worldW.atlases
          worldW.fontChanged).2.1 e.1 = some e.2.1 ∧
        findAsset (drainQueue worldW.queue worldW.images worldW.atlases
          worldW.fontChanged).1 e.2.1.image = some e.2.2) ∧
      text_render cfgA true worldW =
        (let d := drainQueue worldW.queue worldW.images worldW.atlases
           worldW.fontChanged
         let r := runEntities cfgA worldW.db d.2.2 worldW.segChanged
           ⟨d.1, d.2.1, worldW.meshes⟩ worldW.entities
         { worldW with queue := [], images := r.1.images,
                       atlases := r.1.atlases, meshes := r.1.meshes,
                       entities := r.2 })) :=
  ⟨⟨by decide, by decide⟩,
    async_queue_drained_before_entities cfgA worldW (by decide) (by decide)⟩

/-- Claim C1 (failing input): the atlas lookup is keyed with
`styling.weight` (render.rs:379), but on a miss the placement is stored under
the effective weight `attrs.weight.unwrap_or(styling.weight)`
(render.rs:399, 424). With a segment weight override of 700 against styling
weight 400, the freshly stored entry is invisible to the very lookup that
missed: the identical second resolution misses again and tessellates a second
cache entry, where the claim promises a pure cache hit. -/
theorem cache_key_mismatch_on_weight_override :
    (c1_first.map fun r => lookupGlyph r.2.1.glyphs
      (glyph_entry_of glyphA stylingA.weight stylingA.stroke_join none))
      = some none ∧
    (c1_first.map fun r => (lookupGlyph r.2.1.glyphs
      (glyph_entry_of glyphA 700 stylingA.stroke_join none)).isSome)
      = some true ∧
    (c1_first.map fun r => r.2.1.glyphs.length) = some 1 ∧
    (c1_second.map fun r => r.2.1.glyphs.length) = some 2 := by decide

/-- Claim C6: for a glyph whose identity is not cached and whose font face
cannot be fetched or parsed, or whose outline extraction yields nothing
(e.g. whitespace), atlas resolution returns `none`, and the draw request
contributes no quad and changes nothing — the loop continues with the next
request and glyph. -/
theorem glyph_without_outline_contributes_nothing (db : FontDb)
    (scale_factor : ℚ) (styling : Text3dStyling) (dx line_y : ℚ)
    (glyph : LayoutGlyph) (attrs : SegmentStyle) (st : LoopState)
    (req : DrawRequest)
    (hmiss : lookupGlyph st.atlas.glyphs
      (glyph_entry_of glyph styling.weight styling.stroke_join req.stroke)
      = none)
    (hfail : ∀ face, lookupFace db.faces glyph.font = some face →
      face.outline glyph.glyph_id = none) :
    get_atlas_rect db scale_factor styling st.atlas st.image glyph attrs
      req.stroke = none ∧
    drawGlyph db scale_factor styling dx line_y glyph attrs st req = st := by
  have h1 : get_atlas_rect db scale_factor styling st.atlas st.image glyph
      attrs req.stroke = none := by
    unfold get_atlas_rect
    cases hf : lookupFace db.faces glyph.font with
    | none => simp [hmiss, hf]
    | some face => simp [hmiss, hf, cache_glyph, hfail face hf]
  refine ⟨h1, ?_⟩
  unfold drawGlyph
  rw [h1]

/-- Witness for C6 at a whitespace glyph (id 99, no outline in `faceA`). -/
theorem glyph_without_outline_contributes_nothing_witness :
    (lookupGlyph loopStA.atlas.glyphs
      (glyph_entry_of glyphSpace stylingA.weight stylingA.stroke_join
        reqA.stroke) = none) ∧
    (get_atlas_rect dbA 1 stylingA loopStA.atlas loopStA.image glyphSpace
      attrsPlain reqA.stroke = none ∧
     drawGlyph dbA 1 stylingA 0 0 glyphSpace attrsPlain loopStA reqA = loopStA) :=
  ⟨by decide,
    glyph_without_outline_contributes_nothing dbA 1 stylingA 0 0 glyphSpace
      attrsPlain loopStA reqA (by decide)
      (by
        intro face hf
        have hfa : faceA = face := by
          simpa [dbA, lookupFace, glyphSpace] using hf
        rw [← hfa]
        decide)⟩

/-- Claim C3: an entity with no redraw in force, no change to text, bounds or
styling, no changed extracted segment, and atlas image dimensions equal to
the stored record is left completely untouched by the pass: same mesh store,
same atlas cache, same image store, same dimension output. -/
theorem unchanged_entity_is_untouched (cfg : Settings) (db : FontDb)
    (segq : AssetMap Bool) (st : PassState) (e : Entity) (atlas : TextAtlas)
    (image : Image)
    (ha : findAsset st.atlases e.atlasHandle = some atlas)
    (h0 : ¬atlas.image = 0)
    (hi : findAsset st.images atlas.image = some image)
    (ht : e.textChanged = false) (hb : e.boundsChanged = false)
    (hs : e.stylingChanged = false)
    (hseg : (e.segments.all fun s =>
      match s.1 with
      | none => true
      | some ent => !segChangedAt segq ent) = true)
    (hdim : e.output.atlas_dimension
      = ⟨(image.width : ℤ), (image.height : ℤ)⟩) :
    processEntity cfg db false segq st e = .next st e := by
  have hne : ¬(atlas.image = 0 ∨ findAsset st.images atlas.image = none) := by
    simp [h0, hi]
  simp only [processEntity, ha]
  rw [if_neg hne]
  simp only [processEntityInner, hi]
  rw [if_pos ⟨True.intro, ht, hb, hs, hseg⟩, if_pos hdim]

/-- Witness for C3: a fully unchanged entity whose record matches the 2×2
atlas image. -/
theorem unchanged_entity_is_untouched_witness :
    (findAsset stC3.atlases entC3.atlasHandle = some atlasC2 ∧
      ¬atlasC2.image = 0 ∧
      findAsset stC3.images atlasC2.image = some ⟨2, 2⟩ ∧
      entC3.output.atlas_dimension
        = ⟨(((2 : Nat) : ℤ)), (((2 : Nat) : ℤ))⟩) ∧
    processEntity cfgA dbA false [] stC3 entC3 = .next stC3 entC3 :=
  ⟨⟨by decide, by decide, by decide, by decide⟩,
    unchanged_entity_is_untouched cfgA dbA [] stC3 entC3 atlasC2 ⟨2, 2⟩
      (by decide) (by decide) (by decide) rfl rfl rfl (by decide) (by decide)⟩

/-- Claim C2 (amended): provided additionally that no pass-global redraw is in
force (font-system resource unchanged and async queue empty, so
`redraw = false`), an entity with unchanged text, bounds, style and extracted
segments whose atlas image dimensions differ from the stored record is not
rebuilt: every UV0 coordinate is multiplied component-wise by
`old_dimension / new_dimension`, the stored record is set to the new
dimensions, and positions, normals, UV1, colors and indices are unchanged. -/
theorem atlas_resize_rescales_uv0 (cfg : Settings) (db : FontDb)
    (segq : AssetMap Bool) (st : PassState) (e : Entity) (atlas : TextAtlas)
    (image : Image) (mid : Nat) (m : MeshData)
    (ha : findAsset st.atlases e.atlasHandle = some atlas)
    (h0 : ¬atlas.image = 0)
    (hi : findAsset st.images atlas.image = some image)
    (ht : e.textChanged = false) (hb : e.boundsChanged = false)
    (hs : e.stylingChanged = false)
    (hseg : (e.segments.all fun s =>
      match s.1 with
      | none => true
      | some ent => !segChangedAt segq ent) = true)
    (hdim : ¬e.output.atlas_dimension
      = ⟨(image.width : ℤ), (image.height : ℤ)⟩)
    (hm : e.meshHandle = some mid) (hm0 : ¬mid = 0)
    (hfound : findAsset st.meshes mid = some m) :
    processEntity cfg db false segq st e =
      .next { st with
          meshes := insertAsset st.meshes mid
            { m with uv0 := m.uv0.map fun v =>
                ⟨v.x * ((e.output.atlas_dimension.x : ℚ) / ((image.width : ℤ) : ℚ)),
                  v.y * ((e.output.atlas_dimension.y : ℚ) / ((image.height : ℤ) : ℚ))⟩ } }
        { e with meshHandle := some mid,
                 output := { e.output with
                   atlas_dimension := ⟨(image.width : ℤ), (image.height : ℤ)⟩ } } := by
  have hne : ¬(atlas.image = 0 ∨ findAsset st.images atlas.image = none) := by
    simp [h0, hi]
  simp only [processEntity, ha]
  rw [if_neg hne]
  simp only [processEntityInner, hi]
  rw [if_pos ⟨True.intro, ht, hb, hs, hseg⟩, if_neg hdim]
  simp only [get_mesh, hm]
  rw [if_neg hm0]
  simp only [hfound]

/-- Witness for the amended C2: the 4×4 record against the 2×2 image rescales
the single stored UV0 coordinate by `4/2` in each component. -/
theorem atlas_resize_rescales_uv0_witness :
    (¬entC2.output.atlas_dimension
        = ⟨(((2 : Nat) : ℤ)), (((2 : Nat) : ℤ))⟩) ∧
    processEntity cfgA dbA false [] stC3 entC2 =
      .next { stC3 with
          meshes := insertAsset stC3.meshes 1
            { meshC2 with uv0 := meshC2.uv0.map fun v =>
                ⟨v.x * ((entC2.output.atlas_dimension.x : ℚ) / (((2 : Nat) : ℤ) : ℚ)),
                  v.y * ((entC2.output.atlas_dimension.y : ℚ) / (((2 : Nat) : ℤ) : ℚ))⟩ } }
        { entC2 with meshHandle := some 1,
                     output := { entC2.output with
                       atlas_dimension := ⟨(((2 : Nat) : ℤ)), (((2 : Nat) : ℤ))⟩ } } :=
  ⟨by decide,
    atlas_resize_rescales_uv0 cfgA dbA [] stC3 entC2 atlasC2 ⟨2, 2⟩ 1 meshC2
      (by decide) (by decide) (by decide) rfl rfl rfl (by decide) (by decide)
      rfl (by decide) (by decide)⟩

/-- Claim C2 (counterexample): with a pass-global redraw in force (here the
font-system resource reports changed), an entity whose text, bounds, style
and extracted segments are all unchanged and whose atlas image dimensions
(2×2) differ from the stored record (4×4) is fully rebuilt rather than
UV0-rescaled: its previously stored vertex positions are replaced by the
rebuild (here emptied, since the entity has no layout runs), where the claim
promises positions are left unchanged and only UV0 is rescaled. -/
theorem redraw_defeats_resize_rescale :
    entC2.textChanged = false ∧ entC2.boundsChanged = false ∧
    entC2.stylingChanged = false ∧ entC2.segments = [] ∧
    worldC2.entities = [entC2] ∧ worldC2.fontChanged = true ∧
    findAsset worldC2.images atlasC2.image = some ⟨2, 2⟩ ∧
    ¬entC2.output.atlas_dimension = ⟨((2 : Nat) : ℤ), ((2 : Nat) : ℤ)⟩ ∧
    (findAsset worldC2.meshes 1).map MeshData.positions = some [⟨1, 1⟩] ∧
    (findAsset (text_render cfgA true worldC2).meshes 1).map MeshData.positions
      = some [] := by decide

/-- Claim C4 (failing input): when the first entity's atlas handle cannot be
resolved, the source executes `return` (render.rs:98–100), ending the whole
pass: the second, fully resolvable entity is left unprocessed — the pass is a
no-op — although processing the same world without the failing entity updates
it. The claimed behaviour — skip only the failing entity and continue with
the remaining entities — does not hold. -/
theorem unresolved_atlas_ends_whole_pass :
    findAsset worldC4.atlases entC4bad.atlasHandle = none ∧
    text_render cfgA true worldC4 = worldC4 ∧
    (text_render cfgA true worldC4').entities ≠ worldC4'.entities := by decide

/-- Claim C8: for every rebuild, the finalization is ordered as: UV1
bounding-box pass (UV1 is computed from the not-yet-translated positions),
then the anchor/translate pass (positions become
`(v + offset) * world_scale / size` under a world-scale override, else
`v + offset`), and the pixel-to-UV division of UV0 runs last, against the
glyph loop's final image — the image as grown by all cache misses of this
pass — so the divisor is the final image size. -/
theorem finalization_pass_order (db : FontDb) (scale_factor : ℚ)
    (styling : Text3dStyling) (segments : List (Option Nat × SegmentStyle))
    (runs : List LayoutRun) (atlas : TextAtlas) (image : Image) :
    (rebuild db scale_factor styling segments runs atlas image).image
      = (glyphLoop db scale_factor styling segments runs atlas image).image ∧
    (rebuild db scale_factor styling segments runs atlas image).mesh.uv0
      = (glyphLoop db scale_factor styling segments runs atlas image).mesh.uv0.map
        (fun v =>
          ⟨v.x / ((glyphLoop db scale_factor styling segments runs atlas image).image.width : ℚ),
            v.y / ((glyphLoop db scale_factor styling segments runs atlas image).image.height : ℚ)⟩) ∧
    (rebuild db scale_factor styling segments runs atlas image).mesh.uv1
      = (glyphLoop db scale_factor styling segments runs atlas image).mesh.positions.map
        (fun v =>
          let st := glyphLoop db scale_factor styling segments runs atlas image
          let mm : ℚ × ℚ :=
            if st.max_x < st.min_x then (0, 1 / 1000) else (st.min_x, st.max_x)
          ⟨(v.x - mm.1) / (mm.2 - mm.1), (v.y - -st.height) / st.height⟩) ∧
    (rebuild db scale_factor styling segments runs atlas image).mesh.positions
      = (glyphLoop db scale_factor styling segments runs atlas image).mesh.positions.map
        (fun v =>
          let st := glyphLoop db scale_factor styling segments runs atlas image
          let mm : ℚ × ℚ :=
            if st.max_x < st.min_x then (0, 1 / 1000) else (st.min_x, st.max_x)
          let dimension : Vec2 := ⟨mm.2 - mm.1, st.height⟩
          let offset :=
            styling.anchor * dimension - ⟨(mm.2 + mm.1) / 2, -st.height / 2⟩
          match styling.world_scale with
          | some ws => ((v + offset).scale ws).sdiv styling.size
          | none => v + offset) := by
  cases hws : styling.world_scale with
  | none =>
      simp [rebuild, post_process_uv1, MeshData.translate, pixel_to_uv, hws]
  | some ws =>
      simp [rebuild, post_process_uv1, MeshData.translate, pixel_to_uv, hws]

/-- Claim C10 (counterexample): a rebuilt entity whose only glyph has zero
advance width makes `max_x = min_x`: the degenerate-bounds forcing does not
fire and the width written to the dimension output is exactly 0 — not
strictly positive — even though a glyph quad was appended to the mesh. -/
theorem zero_advance_glyph_gives_zero_width :
    (rebuild dbA 1 stylingA segsZ [runZ] atlasA imageA).out.dimension.x = 0 ∧
    (rebuild dbA 1 stylingA segsZ [runZ] atlasA imageA).mesh.positions.length
      = 4 := by decide

/-- Claim C10 (amended): if no glyph quad contributed to the horizontal
bounding box (`max_x` stayed below `min_x`, e.g. empty or whitespace-only
text), the bounds are forced to `min_x = 0`, `max_x = 0.001` and the width
written to the dimension output is exactly `0.001`; when a quad did
contribute, the width is `max_x - min_x`, which can be zero. -/
theorem empty_bounds_width_forced (db : FontDb) (scale_factor : ℚ)
    (styling : Text3dStyling) (segments : List (Option Nat × SegmentStyle))
    (runs : List LayoutRun) (atlas : TextAtlas) (image : Image)
    (h : (glyphLoop db scale_factor styling segments runs atlas image).max_x <
      (glyphLoop db scale_factor styling segments runs atlas image).min_x) :
    (rebuild db scale_factor styling segments runs atlas image).out.dimension.x
      = 1 / 1000 := by
  simp only [rebuild, if_pos h]
  norm_num

/-- Witness for the amended C10: an entity with no layout runs keeps the
`f32::MIN < f32::MAX` sentinels, so the forced width is exactly `0.001`. -/
theorem empty_bounds_width_forced_witness :
    ((glyphLoop dbA 1 stylingA [] [] atlasA imageA).max_x <
      (glyphLoop dbA 1 stylingA [] [] atlasA imageA).min_x) ∧
    (rebuild dbA 1 stylingA [] [] atlasA imageA).out.dimension.x = 1 / 1000 :=
  ⟨by decide,
    empty_bounds_width_forced dbA 1 stylingA [] [] atlasA imageA (by decide)⟩

end BevyRichText3d
